import Mathlib

/-!
Verification of the flowchart-js-library core against its specification.

The JavaScript sources are shallowly embedded: numbers (IEEE doubles used
only through +, -, *, /, min, max, abs and comparisons) are modelled as
rationals, JS objects become structures, `undefined`-able references become
`Option`, and `Math.sqrt d < t` (with `d ≥ 0` a sum of squares) is modelled
by the exactly equivalent comparison `0 < t ∧ d < t * t`.

The repository contains several generations of the canvas class:
 - `src/Node.js`, `src/Connection.js`, `src/index.js` (the "src" variant,
   whose `index.js` is also the one bundled into `dist/flowchart-lib.umd.js`),
 - an older canvas appended inside `src/Area.js` (the "fs" variant),
 - the pan/zoom canvas with the orthogonal router (the "pz" variant:
   the unnamed sources, also bundled in the repository's UMD build).
Definitions below are prefixed `src`, `fs`, `pz` when they belong to a
specific variant; unprefixed geometry definitions come from the pan/zoom
variant's `Node`/`Connection` classes, which are the ones in the UMD build.
-/

namespace Flowchart

/-- A 2D point `{x, y}` in world coordinates. -/
structure Pt where
  x : ℚ
  y : ℚ
  deriving DecidableEq

/-- A flowchart node; the fields of the `Node` class constructor of the
bundled (zoom-aware) variant.  The render-only `selected` flag is omitted. -/
structure Node where
  id : String
  type : String
  x : ℚ
  y : ℚ
  text : String
  width : ℚ
  height : ℚ
  link : String
  fillColor : String
  fontColor : String
  fontSize : ℚ
  outlineColor : String
  outlineWidth : ℚ
  deriving DecidableEq

/-- `new Node(id, type, x, y, text)`: width 120, height 60 and the default
style fields of the bundled `Node` constructor. -/
def mkNode (id type : String) (x y : ℚ) (text : String) : Node :=
  { id := id, type := type, x := x, y := y, text := text
    width := 120, height := 60
    link := "", fillColor := "#FFFFFF", fontColor := "#000000"
    fontSize := 14, outlineColor := "#000000", outlineWidth := 2 }

/-- `Connection.getPortPosition(node, port)` (identical in every variant). -/
def getPortPosition (node : Node) (port : String) : Pt :=
  if port = "top" then ⟨node.x, node.y - node.height / 2⟩
  else if port = "right" then ⟨node.x + node.width / 2, node.y⟩
  else if port = "bottom" then ⟨node.x, node.y + node.height / 2⟩
  else if port = "left" then ⟨node.x - node.width / 2, node.y⟩
  else ⟨node.x, node.y⟩

/-- `Connection.getPortDirection(port)` of the pan/zoom variant. -/
def getPortDirection (port : String) : Pt :=
  if port = "top" then ⟨0, -1⟩
  else if port = "right" then ⟨1, 0⟩
  else if port = "bottom" then ⟨0, 1⟩
  else if port = "left" then ⟨-1, 0⟩
  else ⟨0, 0⟩

/-- `Connection.calculateOrthogonalPath(start, end, startPort, endPort)` of the
pan/zoom variant (`end` is renamed `endp`, a Lean keyword). -/
def calculateOrthogonalPath (start endp : Pt) (startPort endPort : String) : List Pt :=
  let offset : ℚ := 30
  let isHorizontallyAligned := |start.y - endp.y| < 10
  let isVerticallyAligned := |start.x - endp.x| < 10
  if isHorizontallyAligned ∧ (startPort = "left" ∨ startPort = "right")
      ∧ (endPort = "left" ∨ endPort = "right") then
    [start, endp]
  else if isVerticallyAligned ∧ (startPort = "top" ∨ startPort = "bottom")
      ∧ (endPort = "top" ∨ endPort = "bottom") then
    [start, endp]
  else if (startPort = "right" ∨ startPort = "left")
      ∧ (endPort = "top" ∨ endPort = "bottom") then
    [start, ⟨endp.x, start.y⟩, endp]
  else if (startPort = "top" ∨ startPort = "bottom")
      ∧ (endPort = "right" ∨ endPort = "left") then
    [start, ⟨start.x, endp.y⟩, endp]
  else
    let startDir := getPortDirection startPort
    let endDir := getPortDirection endPort
    let p1 : Pt := ⟨start.x + startDir.x * offset, start.y + startDir.y * offset⟩
    let p2 : Pt := ⟨endp.x + endDir.x * offset, endp.y + endDir.y * offset⟩
    if (startPort = "right" ∨ startPort = "left")
        ∧ (endPort = "right" ∨ endPort = "left") then
      let midX := (p1.x + p2.x) / 2
      [start, p1, ⟨midX, p1.y⟩, ⟨midX, p2.y⟩, p2, endp]
    else if (startPort = "top" ∨ startPort = "bottom")
        ∧ (endPort = "top" ∨ endPort = "bottom") then
      let midY := (p1.y + p2.y) / 2
      [start, p1, ⟨p1.x, midY⟩, ⟨p2.x, midY⟩, p2, endp]
    else
      [start, p1, p2, endp]

/-- A connection of the pan/zoom variant; `fromNode`/`toNode` hold the node
objects, `waypoints` defaults to `[]` in the constructor. -/
structure Connection where
  id : String
  fromNode : Node
  fromPort : String
  toNode : Node
  toPort : String
  waypoints : List Pt
  deriving DecidableEq

/-- `Connection.getPathPoints()` of the pan/zoom variant. -/
def getPathPoints (c : Connection) : List Pt :=
  let start := getPortPosition c.fromNode c.fromPort
  let endp := getPortPosition c.toNode c.toPort
  if 0 < c.waypoints.length then
    start :: (c.waypoints ++ [endp])
  else
    calculateOrthogonalPath start endp c.fromPort c.toPort

/-- The fixed 30-unit offset of an endpoint along its own port's facing
direction (spec 4.2, rule 4); used to state the parallel-port routing claim. -/
def offsetPt (p : Pt) (port : String) : Pt :=
  ⟨p.x + (getPortDirection port).x * 30, p.y + (getPortDirection port).y * 30⟩

/-- Node A of the spec scenario: center (100,100), default size 120×60. -/
def nodeA : Node := mkNode "node-0" "process" 100 100 "A"

/-- Node B of the spec scenario: center (300,100), default size 120×60. -/
def nodeB : Node := mkNode "node-1" "process" 300 100 "B"

/-- The scenario connection A.right→B.left with no explicit waypoints. -/
def connAB : Connection := ⟨"conn-0", nodeA, "right", nodeB, "left", []⟩

/-- C4: for a connection with no explicit waypoints, fromPort right and toPort
left, if the port positions satisfy |start.y − end.y| < 10 then the computed
path is exactly [start, end]; in particular the scenario with Node A centered
at (100,100), size 120×60, connected A.right→B.left to Node B centered at
(300,100), size 120×60, has path [(160,100),(240,100)]. -/
theorem c4_right_left_aligned_straight_path :
    (∀ c : Connection, c.waypoints = [] → c.fromPort = "right" → c.toPort = "left" →
      |(getPortPosition c.fromNode c.fromPort).y - (getPortPosition c.toNode c.toPort).y| < 10 →
      getPathPoints c =
        [getPortPosition c.fromNode c.fromPort, getPortPosition c.toNode c.toPort])
    ∧ getPathPoints connAB = [⟨160, 100⟩, ⟨240, 100⟩] := by
  constructor
  · intro c hw hf ht halign
    rw [hf, ht] at halign
    simp [getPathPoints, hw, calculateOrthogonalPath, hf, ht, halign]
  · simp [getPathPoints, connAB, calculateOrthogonalPath, getPortPosition, nodeA, nodeB, mkNode]
    norm_num

/-- Witness for C4: the scenario connection satisfies the alignment hypothesis
and gets the straight two-point path. -/
theorem c4_right_left_aligned_straight_path_witness :
    |(getPortPosition connAB.fromNode connAB.fromPort).y -
        (getPortPosition connAB.toNode connAB.toPort).y| < 10 ∧
    getPathPoints connAB =
      [getPortPosition connAB.fromNode connAB.fromPort,
       getPortPosition connAB.toNode connAB.toPort] :=
  ⟨by simp [connAB, getPortPosition, nodeA, nodeB, mkNode],
   c4_right_left_aligned_straight_path.1 connAB rfl rfl rfl
     (by simp [connAB, getPortPosition, nodeA, nodeB, mkNode])⟩

/-- C5: for a connection with no explicit waypoints whose ports are parallel
(both horizontal-facing, resp. both vertical-facing) and not within the
10-unit alignment tolerance on the relevant axis, the computed path is exactly
[start, offset1, jogA, jogB, offset2, end], where the offsets displace the
endpoints by 30 units along each port's own facing direction and the jogs sit
at the midpoint coordinate between the two offsets. -/
theorem c5_parallel_ports_six_point_path :
    (∀ c : Connection, c.waypoints = [] →
      (c.fromPort = "left" ∨ c.fromPort = "right") →
      (c.toPort = "left" ∨ c.toPort = "right") →
      10 ≤ |(getPortPosition c.fromNode c.fromPort).y -
              (getPortPosition c.toNode c.toPort).y| →
      getPathPoints c =
        [getPortPosition c.fromNode c.fromPort,
         offsetPt (getPortPosition c.fromNode c.fromPort) c.fromPort,
         ⟨((offsetPt (getPortPosition c.fromNode c.fromPort) c.fromPort).x +
             (offsetPt (getPortPosition c.toNode c.toPort) c.toPort).x) / 2,
           (offsetPt (getPortPosition c.fromNode c.fromPort) c.fromPort).y⟩,
         ⟨((offsetPt (getPortPosition c.fromNode c.fromPort) c.fromPort).x +
             (offsetPt (getPortPosition c.toNode c.toPort) c.toPort).x) / 2,
           (offsetPt (getPortPosition c.toNode c.toPort) c.toPort).y⟩,
         offsetPt (getPortPosition c.toNode c.toPort) c.toPort,
         getPortPosition c.toNode c.toPort])
    ∧ (∀ c : Connection, c.waypoints = [] →
      (c.fromPort = "top" ∨ c.fromPort = "bottom") →
      (c.toPort = "top" ∨ c.toPort = "bottom") →
      10 ≤ |(getPortPosition c.fromNode c.fromPort).x -
              (getPortPosition c.toNode c.toPort).x| →
      getPathPoints c =
        [getPortPosition c.fromNode c.fromPort,
         offsetPt (getPortPosition c.fromNode c.fromPort) c.fromPort,
         ⟨(offsetPt (getPortPosition c.fromNode c.fromPort) c.fromPort).x,
           ((offsetPt (getPortPosition c.fromNode c.fromPort) c.fromPort).y +
             (offsetPt (getPortPosition c.toNode c.toPort) c.toPort).y) / 2⟩,
         ⟨(offsetPt (getPortPosition c.toNode c.toPort) c.toPort).x,
           ((offsetPt (getPortPosition c.fromNode c.fromPort) c.fromPort).y +
             (offsetPt (getPortPosition c.toNode c.toPort) c.toPort).y) / 2⟩,
         offsetPt (getPortPosition c.toNode c.toPort) c.toPort,
         getPortPosition c.toNode c.toPort]) := by
  constructor
  · intro c hw hf ht halign
    rcases hf with hf | hf <;> rcases ht with ht | ht <;> rw [hf, ht] at halign <;>
      simp [getPathPoints, hw, calculateOrthogonalPath, offsetPt, getPortDirection,
        hf, ht, not_lt.2 halign]
  · intro c hw hf ht halign
    rcases hf with hf | hf <;> rcases ht with ht | ht <;> rw [hf, ht] at halign <;>
      simp [getPathPoints, hw, calculateOrthogonalPath, offsetPt, getPortDirection,
        hf, ht, not_lt.2 halign]

/-- Concrete connection for the C5 witness: right→left ports, 200 apart
vertically. -/
def connC5 : Connection :=
  ⟨"conn-1", mkNode "node-2" "process" 100 100 "", "right",
    mkNode "node-3" "process" 100 300 "", "left", []⟩

/-- Witness for C5: a right→left pair 200 apart vertically satisfies the
non-alignment hypothesis and gets the six-point jogged path. -/
theorem c5_parallel_ports_six_point_path_witness :
    10 ≤ |(getPortPosition connC5.fromNode connC5.fromPort).y -
            (getPortPosition connC5.toNode connC5.toPort).y| ∧
    getPathPoints connC5 =
      [getPortPosition connC5.fromNode connC5.fromPort,
       offsetPt (getPortPosition connC5.fromNode connC5.fromPort) connC5.fromPort,
       ⟨((offsetPt (getPortPosition connC5.fromNode connC5.fromPort) connC5.fromPort).x +
           (offsetPt (getPortPosition connC5.toNode connC5.toPort) connC5.toPort).x) / 2,
         (offsetPt (getPortPosition connC5.fromNode connC5.fromPort) connC5.fromPort).y⟩,
       ⟨((offsetPt (getPortPosition connC5.fromNode connC5.fromPort) connC5.fromPort).x +
           (offsetPt (getPortPosition connC5.toNode connC5.toPort) connC5.toPort).x) / 2,
         (offsetPt (getPortPosition connC5.toNode connC5.toPort) connC5.toPort).y⟩,
       offsetPt (getPortPosition connC5.toNode connC5.toPort) connC5.toPort,
       getPortPosition connC5.toNode connC5.toPort] :=
  ⟨by simp [connC5, getPortPosition, mkNode]; norm_num,
   c5_parallel_ports_six_point_path.1 connC5 rfl (Or.inr rfl) (Or.inl rfl)
     (by simp [connC5, getPortPosition, mkNode]; norm_num)⟩

/-- The pan/zoom canvas viewport state: pan offset, zoom and the configured
zoom range (constructor defaults minZoom 0.1, maxZoom 5). -/
structure Viewport where
  panX : ℚ
  panY : ℚ
  zoom : ℚ
  minZoom : ℚ
  maxZoom : ℚ
  deriving DecidableEq

/-- `screenToWorld(screenX, screenY)` of the pan/zoom variant. -/
def screenToWorld (v : Viewport) (screenX screenY : ℚ) : Pt :=
  ⟨(screenX - v.panX) / v.zoom, (screenY - v.panY) / v.zoom⟩

/-- `worldToScreen(worldX, worldY)` of the pan/zoom variant. -/
def worldToScreen (v : Viewport) (worldX worldY : ℚ) : Pt :=
  ⟨worldX * v.zoom + v.panX, worldY * v.zoom + v.panY⟩

/-- `zoomAt(x, y, delta)` of the pan/zoom variant: capture the world point
under the cursor, apply the multiplicative step clamped to the range, then
shift the pan by the world-position difference times the new zoom. -/
def zoomAt (v : Viewport) (x y delta : ℚ) : Viewport :=
  let worldPosBefore := screenToWorld v x y
  let zoomFactor : ℚ := if delta > 0 then 11 / 10 else 9 / 10
  let newZoom := max v.minZoom (min v.maxZoom (v.zoom * zoomFactor))
  let vZoomed : Viewport := { v with zoom := newZoom }
  let worldPosAfter := screenToWorld vZoomed x y
  { vZoomed with
      panX := v.panX + (worldPosAfter.x - worldPosBefore.x) * newZoom,
      panY := v.panY + (worldPosAfter.y - worldPosBefore.y) * newZoom }

/-- The pan-recompute step of `zoomAt` exactly cancels in `screenToWorld`:
core algebraic fact behind the zoom-under-cursor invariant. -/
lemma pan_adjust_cancel (p z w q : ℚ) (hz : z ≠ 0) (hw : w ≠ 0) :
    (q - (p + ((q - p) / w - (q - p) / z) * w)) / w = (q - p) / z := by
  field_simp
  ring

/-- C6: for a viewport with 0 < minZoom and zoom within [minZoom, maxZoom] and
a nonzero delta, zoomAt multiplies the zoom by 1.1 (delta > 0) or 0.9
(delta < 0) clamped to the range, and leaves screenToWorld of the zoomed-at
screen point unchanged (exactly, over the rational embedding). -/
theorem c6_zoomAt_keeps_cursor_world_point (v : Viewport) (x y delta : ℚ)
    (hmin : 0 < v.minZoom) (hlo : v.minZoom ≤ v.zoom) (hhi : v.zoom ≤ v.maxZoom)
    (hdelta : delta ≠ 0) :
    (zoomAt v x y delta).zoom =
      max v.minZoom (min v.maxZoom (v.zoom * (if delta > 0 then 11 / 10 else 9 / 10)))
    ∧ screenToWorld (zoomAt v x y delta) x y = screenToWorld v x y := by
  have hz : v.zoom ≠ 0 := ne_of_gt (lt_of_lt_of_le hmin hlo)
  have hw : max v.minZoom (min v.maxZoom (v.zoom * (if delta > 0 then (11 : ℚ) / 10 else 9 / 10))) ≠ 0 :=
    ne_of_gt (lt_of_lt_of_le hmin (le_max_left _ _))
  refine ⟨rfl, ?_⟩
  simp only [zoomAt, screenToWorld, Pt.mk.injEq]
  exact ⟨pan_adjust_cancel v.panX v.zoom _ x hz hw,
    pan_adjust_cancel v.panY v.zoom _ y hz hw⟩

/-- Witness for C6: a concrete zoom-in at (100, 50) from the default viewport. -/
theorem c6_zoomAt_keeps_cursor_world_point_witness :
    ((0 : ℚ) < (1 : ℚ) / 10 ∧ (1 : ℚ) / 10 ≤ 1 ∧ (1 : ℚ) ≤ 5 ∧ (3 : ℚ) ≠ 0)
    ∧ screenToWorld (zoomAt ⟨0, 0, 1, 1 / 10, 5⟩ 100 50 3) 100 50 =
        screenToWorld ⟨0, 0, 1, 1 / 10, 5⟩ 100 50 :=
  ⟨⟨by norm_num, by norm_num, by norm_num, by norm_num⟩,
   (c6_zoomAt_keeps_cursor_world_point ⟨0, 0, 1, 1 / 10, 5⟩ 100 50 3
     (by norm_num) (by norm_num) (by norm_num) (by norm_num)).2⟩

/-- The resizingNode branch of `handleMouseMove` in `src/index.js` (the
variant in the UMD build): `dx`/`dy` are the pointer deltas from
`resizeStart`; only `width`/`height` are written (clamped to 60/40), the
node's center `x`/`y` is never touched. -/
def srcResizeNode (n : Node) (startWidth startHeight : ℚ) (handle : String)
    (dx dy : ℚ) : Node :=
  if handle = "top-left" then
    { n with width := max 60 (startWidth - dx * 2), height := max 40 (startHeight - dy * 2) }
  else if handle = "top-right" then
    { n with width := max 60 (startWidth + dx * 2), height := max 40 (startHeight - dy * 2) }
  else if handle = "bottom-right" then
    { n with width := max 60 (startWidth + dx * 2), height := max 40 (startHeight + dy * 2) }
  else if handle = "bottom-left" then
    { n with width := max 60 (startWidth - dx * 2), height := max 40 (startHeight + dy * 2) }
  else n

/-- Result of `updateResize` in the pan/zoom variant: the node's new width,
height and center position. -/
structure ResizeResult where
  width : ℚ
  height : ℚ
  x : ℚ
  y : ℚ
  deriving DecidableEq

/-- `updateResize(x, y)` of the pan/zoom variant, as a function of the resize
start data (width/height/center at drag start) and the pointer deltas; each
corner clamps to the 60×40 minima and moves the center by half the effective
delta, anchoring the opposite corner. -/
def updateResize (resizeStartWidth resizeStartHeight resizeStartNodeX resizeStartNodeY : ℚ)
    (resizeHandle : String) (dx dy : ℚ) : ResizeResult :=
  let minWidth : ℚ := 60
  let minHeight : ℚ := 40
  if resizeHandle = "top-left" then
    let newWidth := max minWidth (resizeStartWidth - dx)
    let newHeight := max minHeight (resizeStartHeight - dy)
    let actualDx := resizeStartWidth - newWidth
    let actualDy := resizeStartHeight - newHeight
    ⟨newWidth, newHeight, resizeStartNodeX - actualDx / 2, resizeStartNodeY - actualDy / 2⟩
  else if resizeHandle = "top-right" then
    let newWidth := max minWidth (resizeStartWidth + dx)
    let newHeight := max minHeight (resizeStartHeight - dy)
    let actualDx := newWidth - resizeStartWidth
    let actualDy := resizeStartHeight - newHeight
    ⟨newWidth, newHeight, resizeStartNodeX + actualDx / 2, resizeStartNodeY - actualDy / 2⟩
  else if resizeHandle = "bottom-right" then
    let newWidth := max minWidth (resizeStartWidth + dx)
    let newHeight := max minHeight (resizeStartHeight + dy)
    let actualDx := newWidth - resizeStartWidth
    let actualDy := newHeight - resizeStartHeight
    ⟨newWidth, newHeight, resizeStartNodeX + actualDx / 2, resizeStartNodeY + actualDy / 2⟩
  else if resizeHandle = "bottom-left" then
    let newWidth := max minWidth (resizeStartWidth - dx)
    let newHeight := max minHeight (resizeStartHeight + dy)
    let actualDx := resizeStartWidth - newWidth
    let actualDy := newHeight - resizeStartHeight
    ⟨newWidth, newHeight, resizeStartNodeX - actualDx / 2, resizeStartNodeY + actualDy / 2⟩
  else
    ⟨resizeStartWidth, resizeStartHeight, resizeStartNodeX, resizeStartNodeY⟩

/-- C7 counterexample: in the pan/zoom variant's `updateResize`, dragging the
bottom-right handle by (10, 0) from a 120×60 node centered at (100, 100)
moves the center to x = 105 — the center is not invariant. -/
theorem c7_counterexample_updateResize_moves_center :
    (updateResize 120 60 100 100 "bottom-right" 10 0).x = 105 ∧ (105 : ℚ) ≠ 100 := by
  constructor
  · simp [updateResize]
    norm_num
  · norm_num

/-- C7 as amended: in the resize branch of `src/index.js` (the variant in the
UMD build), the node's center is exactly invariant for all four corner
handles and the width/height are clamped to the 60/40 minima. -/
theorem c7_src_resize_center_invariant (n : Node) (startWidth startHeight : ℚ)
    (handle : String) (dx dy : ℚ)
    (hhandle : handle = "top-left" ∨ handle = "top-right" ∨
      handle = "bottom-right" ∨ handle = "bottom-left") :
    (srcResizeNode n startWidth startHeight handle dx dy).x = n.x
    ∧ (srcResizeNode n startWidth startHeight handle dx dy).y = n.y
    ∧ 60 ≤ (srcResizeNode n startWidth startHeight handle dx dy).width
    ∧ 40 ≤ (srcResizeNode n startWidth startHeight handle dx dy).height := by
  rcases hhandle with h | h | h | h <;> subst h <;>
    simp [srcResizeNode, le_max_left]

/-- Witness for C7: the top-left handle with a concrete drag keeps the center
of a 120×60 node at (100, 100) and clamps the size. -/
theorem c7_src_resize_center_invariant_witness :
    (srcResizeNode (mkNode "node_1" "process" 100 100 "") 120 60 "top-left" 50 30).x = 100
    ∧ (srcResizeNode (mkNode "node_1" "process" 100 100 "") 120 60 "top-left" 50 30).y = 100
    ∧ 60 ≤ (srcResizeNode (mkNode "node_1" "process" 100 100 "") 120 60 "top-left" 50 30).width
    ∧ 40 ≤ (srcResizeNode (mkNode "node_1" "process" 100 100 "") 120 60 "top-left" 50 30).height := by
  have h := c7_src_resize_center_invariant (mkNode "node_1" "process" 100 100 "")
    120 60 "top-left" 50 30 (Or.inl rfl)
  simpa [mkNode] using h

/-- A connection point or resize handle record `{x, y, position}`. -/
structure HandlePt where
  x : ℚ
  y : ℚ
  position : String
  deriving DecidableEq

/-- `Node.getConnectionPoints()` (identical in every variant). -/
def getConnectionPoints (n : Node) : List HandlePt :=
  [⟨n.x, n.y - n.height / 2, "top"⟩,
   ⟨n.x + n.width / 2, n.y, "right"⟩,
   ⟨n.x, n.y + n.height / 2, "bottom"⟩,
   ⟨n.x - n.width / 2, n.y, "left"⟩]

/-- `Node.getResizeHandles()` (identical in every variant). -/
def getResizeHandles (n : Node) : List HandlePt :=
  let left := n.x - n.width / 2
  let right := n.x + n.width / 2
  let top := n.y - n.height / 2
  let bottom := n.y + n.height / 2
  [⟨left, top, "top-left"⟩, ⟨right, top, "top-right"⟩,
   ⟨right, bottom, "bottom-right"⟩, ⟨left, bottom, "bottom-left"⟩]

/-- `Math.sqrt d2 < t` for a squared distance `d2 ≥ 0`, embedded exactly:
over the reals, `sqrt d2 < t ↔ 0 < t ∧ d2 < t * t`. -/
def sqrtLtB (d2 t : ℚ) : Bool :=
  decide (0 < t ∧ d2 < t * t)

/-- `Node.isOnConnectionPoint(x, y, zoom)` of the zoom-aware Node (the one in
the UMD build): threshold is 10 / zoom; returns the first point within it. -/
def isOnConnectionPoint (n : Node) (x y zoom : ℚ) : Option HandlePt :=
  let threshold := 10 / zoom
  (getConnectionPoints n).find? (fun point =>
    sqrtLtB ((x - point.x) ^ 2 + (y - point.y) ^ 2) threshold)

/-- `Node.isOnResizeHandle(x, y, zoom)` of the zoom-aware Node: threshold is
8 / zoom. -/
def isOnResizeHandle (n : Node) (x y zoom : ℚ) : Option HandlePt :=
  let threshold := 8 / zoom
  (getResizeHandles n).find? (fun handle =>
    sqrtLtB ((x - handle.x) ^ 2 + (y - handle.y) ^ 2) threshold)

/-- `Node.isOnConnectionPoint(x, y)` of the checked-in `src/Node.js`: no zoom
parameter, the threshold is a fixed 10 (the zoom argument passed by
`src/index.js` is silently ignored). -/
def srcIsOnConnectionPoint (n : Node) (x y : ℚ) : Option HandlePt :=
  (getConnectionPoints n).find? (fun point =>
    sqrtLtB ((x - point.x) ^ 2 + (y - point.y) ^ 2) 10)

/-- `Node.isOnResizeHandle(x, y)` of the checked-in `src/Node.js`: fixed
threshold 8. -/
def srcIsOnResizeHandle (n : Node) (x y : ℚ) : Option HandlePt :=
  (getResizeHandles n).find? (fun handle =>
    sqrtLtB ((x - handle.x) ^ 2 + (y - handle.y) ^ 2) 8)

/-- Squared `pointToLineDistance(px, py, x1, y1, x2, y2)` (clamped-projection
point-to-segment distance; identical in every variant, squared here so the
final `Math.sqrt` is absorbed into `sqrtLtB` comparisons). -/
def pointToLineDistanceSq (px py x1 y1 x2 y2 : ℚ) : ℚ :=
  let dx := x2 - x1
  let dy := y2 - y1
  let lengthSquared := dx * dx + dy * dy
  if lengthSquared = 0 then
    (px - x1) * (px - x1) + (py - y1) * (py - y1)
  else
    let t := ((px - x1) * dx + (py - y1) * dy) / lengthSquared
    let t := max 0 (min 1 t)
    let nearestX := x1 + t * dx
    let nearestY := y1 + t * dy
    (px - nearestX) * (px - nearestX) + (py - nearestY) * (py - nearestY)

/-- `Connection.isNearPoint(x, y, zoom, threshold = 15)` of the orthogonal
(pan/zoom) Connection: true iff some adjacent segment pair of the computed
path is within threshold / zoom. -/
def isNearPoint (c : Connection) (x y zoom threshold : ℚ) : Bool :=
  let adjustedThreshold := threshold / zoom
  let points := getPathPoints c
  (points.zip points.tail).any (fun seg =>
    sqrtLtB (pointToLineDistanceSq x y seg.1.x seg.1.y seg.2.x seg.2.y) adjustedThreshold)

/-- `Connection.isNearPoint(x, y, threshold = 15)` of the checked-in
`src/Connection.js` (straight/bezier variant): endpoint checks, a doubled
midpoint check, then the segment check — no zoom division; `src/index.js`
calls it as `isNearPoint(pos.x, pos.y, this.zoom)`, so the zoom value lands
in the `threshold` parameter. -/
def srcIsNearPoint (c : Connection) (x y threshold : ℚ) : Bool :=
  let start := getPortPosition c.fromNode c.fromPort
  let endp := getPortPosition c.toNode c.toPort
  if sqrtLtB ((start.x - x) ^ 2 + (start.y - y) ^ 2) threshold then true
  else if sqrtLtB ((endp.x - x) ^ 2 + (endp.y - y) ^ 2) threshold then true
  else
    let dist := pointToLineDistanceSq x y start.x start.y endp.x endp.y
    let midX := (start.x + endp.x) / 2
    let midY := (start.y + endp.y) / 2
    if sqrtLtB ((midX - x) ^ 2 + (midY - y) ^ 2) (threshold * 2) then true
    else sqrtLtB dist threshold

/-- The node used for the C8 failing input: centered at the origin, default
size 120×60, so its right port is at (60, 0). -/
def nodeC8 : Node := mkNode "node_1" "process" 0 0 ""

/-- The connection used for the C8 failing input: (0,0).right → (200,0).left,
giving the straight path (60,0)–(140,0). -/
def connC8 : Connection :=
  ⟨"conn_1", nodeC8, "right", mkNode "node_2" "process" 200 0 "", "left", []⟩

/-- C8: the zoom-aware hit tests (the ones in the UMD build) divide their
thresholds by zoom, but the checked-in `src/Node.js` / `src/Connection.js`
do not.  At zoom 2 the point (60, 9) is 9 > 10/2 away from the right port, so
the zoom-aware test misses while the src test (fixed threshold 10) hits; and
at zoom 1 the point (100, 5) is 5 < 15/1 from the path, so the zoom-aware
test is near while the src test — whose threshold parameter receives the
zoom value 1 from its caller — is not. -/
theorem c8_src_hit_tests_ignore_zoom :
    isOnConnectionPoint nodeC8 60 9 2 = none
    ∧ srcIsOnConnectionPoint nodeC8 60 9 = some ⟨60, 0, "right"⟩
    ∧ isNearPoint connC8 100 5 1 15 = true
    ∧ srcIsNearPoint connC8 100 5 1 = false := by
  refine ⟨?_, ?_, ?_, ?_⟩
  · simp [isOnConnectionPoint, getConnectionPoints, nodeC8, mkNode, sqrtLtB]
    norm_num
  · simp [srcIsOnConnectionPoint, getConnectionPoints, nodeC8, mkNode, sqrtLtB]
    norm_num
  · simp [isNearPoint, getPathPoints, connC8, nodeC8, mkNode, calculateOrthogonalPath,
      getPortPosition, pointToLineDistanceSq, sqrtLtB]
    norm_num
  · simp [srcIsNearPoint, connC8, nodeC8, mkNode, getPortPosition,
      pointToLineDistanceSq, sqrtLtB]
    norm_num

/-- A per-node history record of the pan/zoom variant's `saveState`. -/
structure NodeRec where
  id : String
  type : String
  x : ℚ
  y : ℚ
  text : String
  width : ℚ
  height : ℚ
  deriving DecidableEq

/-- A per-connection history record (`fromNodeId`/`toNodeId` are the node
ids; shared by every variant's serializer). -/
structure ConnRec where
  id : String
  fromNodeId : String
  fromPort : String
  toNodeId : String
  toPort : String
  deriving DecidableEq

/-- A full history snapshot of the pan/zoom variant. -/
structure PZSnapshot where
  nodes : List NodeRec
  connections : List ConnRec
  deriving DecidableEq

/-- The scene-plus-history state of the pan/zoom canvas.  Rendering, DOM and
id-counter recomputation (string parsing) are outside the embedded core; the
`maxHistorySize` option is the constant 50. -/
structure PZState where
  nodes : List Node
  connections : List Connection
  selectedNode : Option Node
  selectedConnection : Option Connection
  history : List PZSnapshot
  historyIndex : ℤ
  connectionIdCounter : ℕ
  deriving DecidableEq

/-- The node part of the pan/zoom `saveState` serializer. -/
def pzSerializeNode (n : Node) : NodeRec :=
  ⟨n.id, n.type, n.x, n.y, n.text, n.width, n.height⟩

/-- The connection part of the pan/zoom `saveState` serializer. -/
def pzSerializeConn (c : Connection) : ConnRec :=
  ⟨c.id, c.fromNode.id, c.fromPort, c.toNode.id, c.toPort⟩

/-- The snapshot built by the pan/zoom `saveState`. -/
def pzSerialize (st : PZState) : PZSnapshot :=
  ⟨st.nodes.map pzSerializeNode, st.connections.map pzSerializeConn⟩

/-- `saveState()` of the pan/zoom variant: truncate redo entries, push the
snapshot, then either shift out the oldest entry (overflow past 50) or
advance the index. -/
def pzSaveState (st : PZState) : PZState :=
  let history := st.history.take (st.historyIndex + 1).toNat ++ [pzSerialize st]
  if 50 < history.length then { st with history := history.drop 1 }
  else { st with history := history, historyIndex := st.historyIndex + 1 }

/-- `addConnection(fromNode, fromPort, toNode, toPort)` of the pan/zoom
variant: reject self-connections, deduplicate exact tuples, otherwise create
the connection, commit to history and return it. -/
def pzAddConnection (st : PZState) (fromNode : Node) (fromPort : String)
    (toNode : Node) (toPort : String) : PZState × Option Connection :=
  if fromNode = toNode then (st, none)
  else if st.connections.any (fun conn =>
      decide (conn.fromNode = fromNode ∧ conn.toNode = toNode ∧
        conn.fromPort = fromPort ∧ conn.toPort = toPort)) then (st, none)
  else
    let id := "conn-" ++ toString st.connectionIdCounter
    let connection : Connection := ⟨id, fromNode, fromPort, toNode, toPort, []⟩
    let st1 := { st with
      connections := st.connections ++ [connection],
      connectionIdCounter := st.connectionIdCounter + 1 }
    (pzSaveState st1, some connection)

/-- `addConnection` of the older canvas appended inside `src/Area.js`: same
shape but with no self-connection guard. -/
def fsAddConnection (st : PZState) (fromNode : Node) (fromPort : String)
    (toNode : Node) (toPort : String) : PZState × Option Connection :=
  if st.connections.any (fun conn =>
      decide (conn.fromNode = fromNode ∧ conn.toNode = toNode ∧
        conn.fromPort = fromPort ∧ conn.toPort = toPort)) then (st, none)
  else
    let id := "conn-" ++ toString st.connectionIdCounter
    let connection : Connection := ⟨id, fromNode, fromPort, toNode, toPort, []⟩
    let st1 := { st with
      connections := st.connections ++ [connection],
      connectionIdCounter := st.connectionIdCounter + 1 }
    (pzSaveState st1, some connection)

/-- C3 as amended: `addConnection` of the pan/zoom variant rejects a
self-connection outright — it returns null and the state (connection list,
history, everything) is untouched.  (The older canvas appended inside
`src/Area.js` lacks this guard; see the counterexample.) -/
theorem c3_pz_addConnection_rejects_self (st : PZState) (n : Node)
    (fromPort toPort : String) :
    pzAddConnection st n fromPort n toPort = (st, none) := by
  simp [pzAddConnection]

/-- The node used in the C3 counterexample. -/
def nodeC3 : Node := mkNode "node-0" "process" 100 100 "A"

/-- The canvas state used in the C3 counterexample: one node, no connections,
one history entry (the constructor's initial `saveState`). -/
def stC3 : PZState :=
  { nodes := [nodeC3], connections := [], selectedNode := none,
    selectedConnection := none, history := [⟨[pzSerializeNode nodeC3], []⟩],
    historyIndex := 0, connectionIdCounter := 0 }

/-- C3 counterexample: in the older canvas appended inside `src/Area.js`,
`addConnection(n, right, n, left)` on a fresh scene returns a connection (not
a failure), grows the connection list to 1 and appends a history entry. -/
theorem c3_counterexample_fs_addConnection_self :
    ((fsAddConnection stC3 nodeC3 "right" nodeC3 "left").2).isSome = true
    ∧ (fsAddConnection stC3 nodeC3 "right" nodeC3 "left").1.connections.length = 1
    ∧ (fsAddConnection stC3 nodeC3 "right" nodeC3 "left").1.history.length = 2 := by
  refine ⟨?_, ?_, ?_⟩ <;>
    simp [fsAddConnection, stC3, pzSaveState, pzSerialize]

/-- The node-rebuild step of the pan/zoom `restoreState` / `importFromJSON`:
`new Node(...)` then width/height overwritten from the record. -/
def pzRestoreNode (nodeData : NodeRec) : Node :=
  { mkNode nodeData.id nodeData.type nodeData.x nodeData.y nodeData.text with
      width := nodeData.width, height := nodeData.height }

/-- JS `nodeMap.get(id)` where the map was filled with `nodeMap.set(n.id, n)`
for each rebuilt node in order (later entries overwrite earlier ones), so the
lookup runs over the reversed association list. -/
def nodeMapGet (nodes : List Node) (id : String) : Option Node :=
  ((nodes.map (fun n => (n.id, n))).reverse).lookup id

/-- The connection-relink loop of the pan/zoom `restoreState` /
`importFromJSON`: a connection is pushed only when both endpoint ids resolve
in the freshly rebuilt node map. -/
def pzRelinkConnections (nodes : List Node) (recs : List ConnRec) : List Connection :=
  recs.filterMap (fun connData =>
    match nodeMapGet nodes connData.fromNodeId, nodeMapGet nodes connData.toNodeId with
    | some fromNode, some toNode =>
      some ⟨connData.id, fromNode, connData.fromPort, toNode, connData.toPort, []⟩
    | _, _ => none)

/-- `restoreState(state)` of the pan/zoom variant: rebuild nodes, relink
connections by id lookup (dropping unresolvable ones), clear the selection.
(The id-counter recomputation by string parsing is outside the model.) -/
def pzRestoreState (st : PZState) (state : PZSnapshot) : PZState :=
  let nodes := state.nodes.map pzRestoreNode
  let connections := pzRelinkConnections nodes state.connections
  { st with
      nodes := nodes, connections := connections,
      selectedNode := none, selectedConnection := none }

/-- A successful association-list lookup returns a stored pair. -/
lemma lookup_mem {l : List (String × Node)} {i : String} {n : Node}
    (h : l.lookup i = some n) : (i, n) ∈ l := by
  induction l with
  | nil => simp [List.lookup] at h
  | cons p l ih =>
    obtain ⟨k, v⟩ := p
    rw [List.lookup] at h
    cases hk : i == k with
    | false =>
      simp only [hk] at h
      exact List.mem_cons_of_mem _ (ih h)
    | true =>
      simp only [hk, Option.some.injEq] at h
      have hik : i = k := by simpa using hk
      rw [hik, ← h]
      exact List.mem_cons_self _ _

/-- A node returned by the JS node map is one of the rebuilt nodes. -/
lemma nodeMapGet_mem {nodes : List Node} {i : String} {n : Node}
    (h : nodeMapGet nodes i = some n) : n ∈ nodes := by
  have hp := lookup_mem h
  rw [List.mem_reverse] at hp
  rcases List.mem_map.1 hp with ⟨m, hm, he⟩
  cases he
  exact hm

/-- The relink loop keeps exactly the records whose both endpoint ids
resolve. -/
lemma pzRelinkConnections_length (nodes : List Node) (recs : List ConnRec) :
    (pzRelinkConnections nodes recs).length =
      (recs.filter (fun connData => (nodeMapGet nodes connData.fromNodeId).isSome &&
        (nodeMapGet nodes connData.toNodeId).isSome)).length := by
  induction recs with
  | nil => rfl
  | cons c cs ih =>
    rw [pzRelinkConnections, List.filterMap_cons, List.filter_cons]
    cases hf : nodeMapGet nodes c.fromNodeId <;> cases ht : nodeMapGet nodes c.toNodeId <;>
      simp_all [pzRelinkConnections]

/-- Every connection produced by the relink loop points at rebuilt nodes. -/
lemma pzRelinkConnections_mem (nodes : List Node) (recs : List ConnRec)
    (c : Connection) (hc : c ∈ pzRelinkConnections nodes recs) :
    c.fromNode ∈ nodes ∧ c.toNode ∈ nodes := by
  rcases List.mem_filterMap.1 hc with ⟨cd, _, hcd⟩
  cases hf : nodeMapGet nodes cd.fromNodeId <;> cases ht : nodeMapGet nodes cd.toNodeId <;>
    rw [hf, ht] at hcd <;> simp only [Option.some.injEq, reduceCtorEq] at hcd
  rename_i nf nt
  cases hcd
  exact ⟨nodeMapGet_mem hf, nodeMapGet_mem ht⟩

/-- C2 as amended: in the pan/zoom variant, `restoreState` (and the identical
relink loop of its `importFromJSON`) silently drops every connection record
whose fromNodeId or toNodeId does not resolve among the rebuilt nodes: the
rebuilt scene holds exactly the resolvable records, each linking two rebuilt
nodes, and no error is raised.  (The `src/index.js` variant instead keeps
such a connection with undefined endpoints; see the counterexample.) -/
theorem c2_pz_restore_drops_dangling (st : PZState) (snap : PZSnapshot) :
    (pzRestoreState st snap).connections.length =
      (snap.connections.filter (fun connData =>
        (nodeMapGet (snap.nodes.map pzRestoreNode) connData.fromNodeId).isSome &&
        (nodeMapGet (snap.nodes.map pzRestoreNode) connData.toNodeId).isSome)).length
    ∧ ∀ c ∈ (pzRestoreState st snap).connections,
        c.fromNode ∈ (pzRestoreState st snap).nodes ∧
        c.toNode ∈ (pzRestoreState st snap).nodes :=
  ⟨pzRelinkConnections_length _ _, fun c hc => pzRelinkConnections_mem _ _ c hc⟩

/-- Snapshot for the C2 witness: two nodes, one resolvable connection and one
whose toNodeId ("node-9") is dangling. -/
def snapC2 : PZSnapshot :=
  ⟨[⟨"node-0", "process", 0, 0, "", 120, 60⟩, ⟨"node-1", "process", 200, 0, "", 120, 60⟩],
   [⟨"conn-0", "node-0", "right", "node-1", "left"⟩,
    ⟨"conn-1", "node-0", "right", "node-9", "left"⟩]⟩

/-- The one connection surviving the C2 witness restore. -/
def connC2 : Connection :=
  ⟨"conn-0", pzRestoreNode ⟨"node-0", "process", 0, 0, "", 120, 60⟩, "right",
    pzRestoreNode ⟨"node-1", "process", 200, 0, "", 120, 60⟩, "left", []⟩

/-- Witness for C2: restoring the dangling snapshot keeps exactly the one
resolvable connection, whose endpoints are rebuilt nodes. -/
theorem c2_pz_restore_drops_dangling_witness :
    (pzRestoreState stC3 snapC2).connections.length = 1
    ∧ connC2.fromNode ∈ (pzRestoreState stC3 snapC2).nodes
    ∧ connC2.toNode ∈ (pzRestoreState stC3 snapC2).nodes := by
  have h := c2_pz_restore_drops_dangling stC3 snapC2
  have hmem : connC2 ∈ (pzRestoreState stC3 snapC2).connections := by
    simp [pzRestoreState, pzRelinkConnections, snapC2, nodeMapGet, connC2, List.lookup,
      pzRestoreNode, mkNode]
  refine ⟨?_, (h.2 connC2 hmem).1, (h.2 connC2 hmem).2⟩
  rw [h.1]
  simp [snapC2, nodeMapGet, List.lookup, pzRestoreNode, mkNode]

/-- An area of the `src/Area.js` class; constructor normalizes the corners
with min/max and sets default style fields.  (Render-only `selected` flag
omitted.) -/
structure Area where
  id : String
  x1 : ℚ
  y1 : ℚ
  x2 : ℚ
  y2 : ℚ
  title : String
  fillColor : String
  outlineColor : String
  outlineWidth : ℚ
  titleBgColor : String
  titleTextColor : String
  deriving DecidableEq

/-- `new Area(id, x1, y1, x2, y2, title = 'Section')`. -/
def mkArea (id : String) (x1 y1 x2 y2 : ℚ) (title : String) : Area :=
  { id := id, x1 := min x1 x2, y1 := min y1 y2, x2 := max x1 x2, y2 := max y1 y2,
    title := title, fillColor := "rgba(33, 150, 243, 0.1)", outlineColor := "#000",
    outlineWidth := 1, titleBgColor := "#000", titleTextColor := "#FFFFFF" }

/-- A connection of the `src/index.js` variant: the endpoint node references
come from `nodes.find(...)` during restore and can be `undefined`. -/
structure SrcConn where
  id : String
  fromNode : Option Node
  fromPort : String
  toNode : Option Node
  toPort : String
  deriving DecidableEq

/-- A per-node history record of the `src/index.js` `saveState` (all thirteen
serialized fields). -/
structure SrcNodeRec where
  id : String
  type : String
  x : ℚ
  y : ℚ
  text : String
  width : ℚ
  height : ℚ
  link : String
  fillColor : String
  fontColor : String
  fontSize : ℚ
  outlineColor : String
  outlineWidth : ℚ
  deriving DecidableEq

/-- A per-area history record of the `src/index.js` `saveState`. -/
structure SrcAreaRec where
  id : String
  x1 : ℚ
  y1 : ℚ
  x2 : ℚ
  y2 : ℚ
  title : String
  fillColor : String
  outlineColor : String
  titleBgColor : String
  deriving DecidableEq

/-- A full history snapshot of the `src/index.js` variant (the parsed form of
the JSON string it stores; JSON round-tripping of these fields is the
identity). -/
structure SrcSnapshot where
  nodes : List SrcNodeRec
  connections : List ConnRec
  areas : List SrcAreaRec
  deriving DecidableEq

/-- The scene-plus-history state of the `src/index.js` canvas.  Rendering,
DOM, dialogs and id counters are outside the embedded core. -/
structure SrcState where
  nodes : List Node
  connections : List SrcConn
  areas : List Area
  selectedNode : Option Node
  selectedConnection : Option SrcConn
  selectedArea : Option Area
  history : List SrcSnapshot
  historyIndex : ℤ
  deriving DecidableEq

/-- The node part of the `src/index.js` `saveState` serializer. -/
def srcSerializeNode (n : Node) : SrcNodeRec :=
  ⟨n.id, n.type, n.x, n.y, n.text, n.width, n.height, n.link, n.fillColor,
   n.fontColor, n.fontSize, n.outlineColor, n.outlineWidth⟩

/-- The area part of the `src/index.js` `saveState` serializer. -/
def srcSerializeArea (a : Area) : SrcAreaRec :=
  ⟨a.id, a.x1, a.y1, a.x2, a.y2, a.title, a.fillColor, a.outlineColor, a.titleBgColor⟩

/-- The connection part of the `src/index.js` `saveState` serializer; reading
`conn.fromNode.id` on an undefined endpoint throws in JS, modelled as
`none`. -/
def srcSerializeConns : List SrcConn → Option (List ConnRec)
  | [] => some []
  | c :: cs =>
    match c.fromNode, c.toNode with
    | some f, some t =>
      (srcSerializeConns cs).map (fun rest => ⟨c.id, f.id, c.fromPort, t.id, c.toPort⟩ :: rest)
    | _, _ => none

/-- The snapshot built by the `src/index.js` `saveState` (`none` models the
TypeError on a dangling endpoint). -/
def srcSerialize (st : SrcState) : Option SrcSnapshot :=
  (srcSerializeConns st.connections).map (fun conns =>
    ⟨st.nodes.map srcSerializeNode, conns, st.areas.map srcSerializeArea⟩)

/-- JS falsy-default `a || b` for strings: the empty string is falsy. -/
def orDefault (s d : String) : String := if s = "" then d else s

/-- JS falsy-default `a || b` for numbers (0 is falsy). -/
def orDefaultQ (q d : ℚ) : ℚ := if q = 0 then d else q

/-- The node-rebuild step of the `src/index.js` `restoreState` /
`importFromJSON`: `new Node(...)`, then width/height and the falsy-defaulted
style fields. -/
def srcRestoreNode (nodeData : SrcNodeRec) : Node :=
  { mkNode nodeData.id nodeData.type nodeData.x nodeData.y nodeData.text with
      width := nodeData.width, height := nodeData.height,
      link := orDefault nodeData.link "",
      fillColor := orDefault nodeData.fillColor "#FFFFFF",
      fontColor := orDefault nodeData.fontColor "#000000",
      fontSize := orDefaultQ nodeData.fontSize 14,
      outlineColor := orDefault nodeData.outlineColor "#000000",
      outlineWidth := orDefaultQ nodeData.outlineWidth 2 }

/-- The area-rebuild step of the `src/index.js` `restoreState` /
`importFromJSON`. -/
def srcRestoreArea (areaData : SrcAreaRec) : Area :=
  { mkArea areaData.id areaData.x1 areaData.y1 areaData.x2 areaData.y2 areaData.title with
      fillColor := orDefault areaData.fillColor "rgba(33, 150, 243, 0.1)",
      outlineColor := orDefault areaData.outlineColor "#2196F3",
      titleBgColor := orDefault areaData.titleBgColor "#2196F3" }

/-- The connection-rebuild loop of the `src/index.js` `restoreState` /
`importFromJSON`: every record is rebuilt, with `nodes.find(...)` as the
endpoints — an unresolved id leaves the endpoint `undefined`, the record is
NOT dropped. -/
def srcRelinkConnections (nodes : List Node) (recs : List ConnRec) : List SrcConn :=
  recs.map (fun connData =>
    ⟨connData.id, nodes.find? (fun n => n.id == connData.fromNodeId), connData.fromPort,
      nodes.find? (fun n => n.id == connData.toNodeId), connData.toPort⟩)

/-- `restoreState(stateStr)` of `src/index.js`: rebuild nodes, connections and
areas, clear all three selections. -/
def srcRestoreState (st : SrcState) (state : SrcSnapshot) : SrcState :=
  let nodes := state.nodes.map srcRestoreNode
  let connections := srcRelinkConnections nodes state.connections
  let areas := state.areas.map srcRestoreArea
  { st with
      nodes := nodes, connections := connections, areas := areas,
      selectedNode := none, selectedConnection := none, selectedArea := none }

/-- `undo()` of `src/index.js`: decrement the index and restore that snapshot
when the index is positive.  (The out-of-range branch is unreachable under
the invariant 0 ≤ historyIndex < history.length.) -/
def srcUndo (st : SrcState) : SrcState :=
  if 0 < st.historyIndex then
    match st.history.get? (st.historyIndex - 1).toNat with
    | some snap => { srcRestoreState st snap with historyIndex := st.historyIndex - 1 }
    | none => { st with historyIndex := st.historyIndex - 1 }
  else st

/-- `redo()` of `src/index.js`: increment the index and restore that snapshot
when the index is below the last entry. -/
def srcRedo (st : SrcState) : SrcState :=
  if st.historyIndex < (st.history.length : ℤ) - 1 then
    match st.history.get? (st.historyIndex + 1).toNat with
    | some snap => { srcRestoreState st snap with historyIndex := st.historyIndex + 1 }
    | none => { st with historyIndex := st.historyIndex + 1 }
  else st

/-- The structural-equality footprint of a node claimed by C1: id, type, x, y,
text, width, height. -/
def nodeCore (n : Node) : String × String × ℚ × ℚ × String × ℚ × ℚ :=
  (n.id, n.type, n.x, n.y, n.text, n.width, n.height)

/-- The structural-equality footprint of a connection claimed by C1: endpoint
node ids and ports (plus the record id). -/
def srcConnCore (c : SrcConn) :
    String × Option String × String × Option String × String :=
  (c.id, c.fromNode.map (fun n => n.id), c.fromPort, c.toNode.map (fun n => n.id), c.toPort)

/-- The structural-equality footprint of an area claimed by C1: the serialized
area fields. -/
def areaCore (a : Area) : String × ℚ × ℚ × ℚ × ℚ × String × String × String × String :=
  (a.id, a.x1, a.y1, a.x2, a.y2, a.title, a.fillColor, a.outlineColor, a.titleBgColor)

/-- Structural scene equality: same entity counts, and per-entity the fields
listed in C1 agree. -/
def sceneEq (s t : SrcState) : Prop :=
  s.nodes.map nodeCore = t.nodes.map nodeCore ∧
  s.connections.map srcConnCore = t.connections.map srcConnCore ∧
  s.areas.map areaCore = t.areas.map areaCore

/-- Both endpoints of a connection are present nodes whose ids occur in the
scene's node list. -/
def connResolves (ns : List Node) (c : SrcConn) : Bool :=
  match c.fromNode, c.toNode with
  | some f, some t => ns.any (fun n => n.id == f.id) && ns.any (fun n => n.id == t.id)
  | _, _ => false

/-- An area has ordered corners (the constructor normalizes them; drags and
clamped resizes preserve them) and non-empty, JS-truthy style strings (the
constructor and the settings dialog only ever store non-empty colors). -/
def areaNormalized (a : Area) : Bool :=
  decide (a.x1 ≤ a.x2) && decide (a.y1 ≤ a.y2) && !(a.fillColor == "")
    && !(a.outlineColor == "") && !(a.titleBgColor == "")

/-- Scene well-formedness, invariant for every state reachable by committing
operations. -/
def srcWellFormed (st : SrcState) : Bool :=
  st.connections.all (connResolves st.nodes) && st.areas.all areaNormalized

/-- A successful id search returns a node carrying exactly the searched id. -/
lemma find?_id_eq {nodes : List Node} {i : String}
    (h : nodes.any (fun n => n.id == i) = true) :
    (nodes.find? (fun n => n.id == i)).map (fun n => n.id) = some i := by
  have hex : ∃ n ∈ nodes, (n.id == i) = true := by simpa using h
  have hsome : (nodes.find? (fun n => n.id == i)).isSome := List.find?_isSome.mpr hex
  cases hfind : nodes.find? (fun n => n.id == i) with
  | none => rw [hfind] at hsome; simp at hsome
  | some m =>
    have hm := List.find?_some hfind
    show some m.id = some i
    exact congrArg some (by simpa using hm)

/-- Serialize-then-restore preserves node ids, hence id searches. -/
lemma restored_any_id (ns : List Node) (i : String) :
    ((ns.map srcSerializeNode).map srcRestoreNode).any (fun n => n.id == i)
      = ns.any (fun n => n.id == i) := by
  rw [List.map_map, List.any_map]
  rfl

/-- Per-node round trip of the C1 footprint fields. -/
lemma nodeCore_roundtrip (n : Node) :
    nodeCore (srcRestoreNode (srcSerializeNode n)) = nodeCore n := rfl

/-- Per-area round trip of the C1 footprint fields, under the reachability
invariants recorded in `areaNormalized`. -/
lemma areaCore_roundtrip (a : Area) (h1 : a.x1 ≤ a.x2) (h2 : a.y1 ≤ a.y2)
    (hf : a.fillColor ≠ "") (ho : a.outlineColor ≠ "") (ht : a.titleBgColor ≠ "") :
    areaCore (srcRestoreArea (srcSerializeArea a)) = areaCore a := by
  simp [areaCore, srcRestoreArea, srcSerializeArea, mkArea, orDefault,
    min_eq_left h1, max_eq_right h1, min_eq_left h2, max_eq_right h2, hf, ho, ht]

/-- Serializing then relinking the connection list preserves the C1 footprint
(endpoint ids and ports), provided every endpoint resolves in the scene. -/
lemma relink_serialize_core (ns : List Node) :
    ∀ (cs : List SrcConn) (l : List ConnRec),
    srcSerializeConns cs = some l →
    cs.all (connResolves ns) = true →
    (srcRelinkConnections ((ns.map srcSerializeNode).map srcRestoreNode) l).map srcConnCore
      = cs.map srcConnCore := by
  intro cs
  induction cs with
  | nil =>
    intro l hser _
    rw [srcSerializeConns] at hser
    cases hser
    rfl
  | cons c cs ih =>
    intro l hser hall
    rw [List.all_cons, Bool.and_eq_true] at hall
    obtain ⟨hc, hcs⟩ := hall
    rw [srcSerializeConns] at hser
    cases hfrom : c.fromNode with
    | none => simp [hfrom] at hser
    | some f =>
      cases hto : c.toNode with
      | none => simp [hfrom, hto] at hser
      | some t =>
        simp only [hfrom, hto] at hser
        rcases Option.map_eq_some'.mp hser with ⟨rest, hrest, hl⟩
        subst hl
        rw [connResolves, hfrom, hto, Bool.and_eq_true] at hc
        obtain ⟨hcf, hct⟩ := hc
        have h1 : ((((ns.map srcSerializeNode).map srcRestoreNode).find?
            (fun n => n.id == f.id)).map (fun n => n.id)) = some f.id :=
          find?_id_eq (by rw [restored_any_id]; exact hcf)
        have h2 : ((((ns.map srcSerializeNode).map srcRestoreNode).find?
            (fun n => n.id == t.id)).map (fun n => n.id)) = some t.id :=
          find?_id_eq (by rw [restored_any_id]; exact hct)
        rw [srcRelinkConnections, List.map_cons, List.map_cons, List.map_cons]
        rw [← srcRelinkConnections, ih rest hrest hcs]
        refine congrArg (fun p => p :: cs.map srcConnCore) ?_
        simp only [srcConnCore, hfrom, hto, h1, h2]
        rfl

/-- Restoring a scene's own serialization reproduces the C1 footprint of the
scene, from any base state. -/
lemma srcRestore_serialize_sceneEq (st base : SrcState) (snap : SrcSnapshot)
    (hser : srcSerialize st = some snap) (hwf : srcWellFormed st = true) :
    sceneEq (srcRestoreState base snap) st := by
  rw [srcSerialize] at hser
  rcases Option.map_eq_some'.mp hser with ⟨conns, hconns, hsnap⟩
  subst hsnap
  rw [srcWellFormed, Bool.and_eq_true] at hwf
  obtain ⟨hwc, hwa⟩ := hwf
  unfold sceneEq
  refine ⟨?_, ?_, ?_⟩
  · show ((st.nodes.map srcSerializeNode).map srcRestoreNode).map nodeCore
      = st.nodes.map nodeCore
    rw [List.map_map, List.map_map]
    rfl
  · exact relink_serialize_core st.nodes st.connections conns hconns hwc
  · show ((st.areas.map srcSerializeArea).map srcRestoreArea).map areaCore
      = st.areas.map areaCore
    rw [List.map_map, List.map_map]
    refine List.map_congr_left ?_
    intro a ha
    have hn := List.all_eq_true.mp hwa a ha
    rw [areaNormalized] at hn
    simp only [Bool.and_eq_true, decide_eq_true_eq, Bool.not_eq_true',
      beq_eq_false_iff_ne] at hn
    obtain ⟨⟨⟨⟨h1, h2⟩, hfc⟩, hoc⟩, htc⟩ := hn
    exact areaCore_roundtrip a h1 h2 hfc hoc htc

/-- Scene equality is reflexive. -/
lemma sceneEq_refl (s : SrcState) : sceneEq s s := by
  unfold sceneEq
  exact ⟨rfl, rfl, rfl⟩

/-- Overwriting the history index does not affect scene equality. -/
lemma sceneEq_hist (a : SrcState) (i : ℤ) (t : SrcState) (h : sceneEq a t) :
    sceneEq { a with historyIndex := i } t := by
  unfold sceneEq at h ⊢
  exact h

/-- `undo()` under its guard, with the snapshot it lands on. -/
lemma srcUndo_eq_of (st : SrcState) (h1 : 0 < st.historyIndex) {snap : SrcSnapshot}
    (h : st.history.get? (st.historyIndex - 1).toNat = some snap) :
    srcUndo st = { srcRestoreState st snap with historyIndex := st.historyIndex - 1 } := by
  rw [srcUndo, if_pos h1, h]

/-- `redo()` under its guard, with the snapshot it lands on. -/
lemma srcRedo_eq_of (st : SrcState) (h1 : st.historyIndex < (st.history.length : ℤ) - 1)
    {snap : SrcSnapshot}
    (h : st.history.get? (st.historyIndex + 1).toNat = some snap) :
    srcRedo st = { srcRestoreState st snap with historyIndex := st.historyIndex + 1 } := by
  rw [srcRedo, if_pos h1, h]

/-- C1: from any scene state reachable by committing operations — captured by
the invariants that the scene is well formed, serializable, that the index
denotes the last history entry and that this entry is the serialization of
the live scene (every committing operation ends in `saveState`, which
establishes exactly this) — `undo(); redo();` yields a scene structurally
equal to the pre-undo scene: same node count and per-node id/type/x/y/text/
width/height, same connection count and per-connection endpoints and ports,
same area count and per-area fields. -/
theorem c1_undo_redo_roundtrip (st : SrcState) (snap : SrcSnapshot)
    (hser : srcSerialize st = some snap) (hwf : srcWellFormed st = true)
    (hidx : st.historyIndex = (st.history.length : ℤ) - 1)
    (hpos : 0 < st.history.length)
    (hcur : st.history.get? st.historyIndex.toNat = some snap) :
    sceneEq (srcRedo (srcUndo st)) st := by
  by_cases h1 : 0 < st.historyIndex
  · have hn : (st.historyIndex - 1).toNat < st.history.length := by omega
    rw [srcUndo_eq_of st h1 (List.get?_eq_get hn)]
    set stMid : SrcState :=
      { srcRestoreState st (st.history.get ⟨(st.historyIndex - 1).toNat, hn⟩) with
        historyIndex := st.historyIndex - 1 } with hstMid
    have hg : stMid.historyIndex < (stMid.history.length : ℤ) - 1 := by
      show st.historyIndex - 1 < (st.history.length : ℤ) - 1
      omega
    have hcur2 : stMid.history.get? (stMid.historyIndex + 1).toNat = some snap := by
      show st.history.get? (st.historyIndex - 1 + 1).toNat = some snap
      rw [sub_add_cancel]
      exact hcur
    rw [srcRedo_eq_of stMid hg hcur2]
    exact sceneEq_hist (srcRestoreState stMid snap) _ st
      (srcRestore_serialize_sceneEq st stMid snap hser hwf)
  · have hguard : ¬ st.historyIndex < (st.history.length : ℤ) - 1 := by omega
    rw [srcUndo, if_neg h1, srcRedo, if_neg hguard]
    exact sceneEq_refl st

/-- The node of the C1 witness scene. -/
def nodeW : Node := mkNode "node_1" "process" 1 2 "hello"

/-- The connection of the C1 witness scene (both endpoints resolve). -/
def connW : SrcConn := ⟨"conn_1", some nodeW, "right", some nodeW, "left"⟩

/-- The area of the C1 witness scene. -/
def areaW : Area := mkArea "area_1" 0 0 100 50 "Section"

/-- The current-scene snapshot of the C1 witness state. -/
def snapW : SrcSnapshot :=
  ⟨[srcSerializeNode nodeW], [⟨"conn_1", "node_1", "right", "node_1", "left"⟩],
   [srcSerializeArea areaW]⟩

/-- The C1 witness state: one node, one connection, one area, a two-entry
history whose last entry serializes the live scene. -/
def stW : SrcState :=
  ⟨[nodeW], [connW], [areaW], none, none, none, [⟨[], [], []⟩, snapW], 1⟩

/-- Witness for C1: undo-then-redo on the concrete two-entry-history state
reproduces its scene. -/
theorem c1_undo_redo_roundtrip_witness : sceneEq (srcRedo (srcUndo stW)) stW :=
  c1_undo_redo_roundtrip stW snapW rfl (by decide) (by decide) (by decide) rfl

/-- The import record of the C2 counterexample: one node `node_1` and one
connection whose toNodeId `node_999` matches no node in the record. -/
def snapDangling : SrcSnapshot :=
  ⟨[⟨"node_1", "process", 0, 0, "", 120, 60, "", "#FFFFFF", "#000000", 14, "#000000", 2⟩],
   [⟨"conn_1", "node_1", "right", "node_999", "left"⟩], []⟩

/-- A fresh `src/index.js` state (as after construction). -/
def stSrcEmpty : SrcState := ⟨[], [], [], none, none, none, [⟨[], [], []⟩], 0⟩

/-- C2 counterexample: reconstruction in `src/index.js` (the shared rebuild
loop of `restoreState` and `importFromJSON`) does NOT drop a connection with
a dangling endpoint id: the rebuilt scene still holds the connection, with an
undefined (`none`) toNode. -/
theorem c2_counterexample_src_restore_keeps_dangling :
    (srcRestoreState stSrcEmpty snapDangling).connections.length = 1
    ∧ (srcRestoreState stSrcEmpty snapDangling).connections.map (fun c => c.toNode)
        = [none] := by
  constructor <;> decide

/-- C10: whenever `undo()` or `redo()` actually performs a restore (its index
guard holds, under the index-in-range invariant), the restored state has no
selected node, connection or area, regardless of the prior selection. -/
theorem c10_restore_clears_selection (st : SrcState)
    (h0 : 0 ≤ st.historyIndex) (hlt : st.historyIndex < (st.history.length : ℤ)) :
    (0 < st.historyIndex →
      (srcUndo st).selectedNode = none ∧ (srcUndo st).selectedConnection = none ∧
      (srcUndo st).selectedArea = none)
    ∧ (st.historyIndex < (st.history.length : ℤ) - 1 →
      (srcRedo st).selectedNode = none ∧ (srcRedo st).selectedConnection = none ∧
      (srcRedo st).selectedArea = none) := by
  constructor
  · intro h1
    have hn : (st.historyIndex - 1).toNat < st.history.length := by omega
    rw [srcUndo_eq_of st h1 (List.get?_eq_get hn)]
    exact ⟨rfl, rfl, rfl⟩
  · intro h2
    have hn : (st.historyIndex + 1).toNat < st.history.length := by omega
    rw [srcRedo_eq_of st h2 (List.get?_eq_get hn)]
    exact ⟨rfl, rfl, rfl⟩

/-- The C10 witness state: three history entries, index in the middle, and
every selection field non-null. -/
def stSel : SrcState :=
  ⟨[nodeW], [connW], [areaW], some nodeW, some connW, some areaW,
   [⟨[], [], []⟩, snapW, ⟨[], [], []⟩], 1⟩

/-- Witness for C10: on the concrete selected state both undo and redo
restore and clear all three selections. -/
theorem c10_restore_clears_selection_witness :
    ((srcUndo stSel).selectedNode = none ∧ (srcUndo stSel).selectedConnection = none ∧
      (srcUndo stSel).selectedArea = none)
    ∧ ((srcRedo stSel).selectedNode = none ∧ (srcRedo stSel).selectedConnection = none ∧
      (srcRedo stSel).selectedArea = none) :=
  ⟨(c10_restore_clears_selection stSel (by decide) (by decide)).1 (by decide),
   (c10_restore_clears_selection stSel (by decide) (by decide)).2 (by decide)⟩

/-- The history-stack mechanics of `saveState` in `src/index.js` with the
snapshot abstracted (state = history list × historyIndex): truncate redo
entries, push the snapshot, advance the index, then on overflow past 50 shift
out the oldest entry and pull the index back. -/
def histCommit {α : Type} (h : List α × ℤ) (s : α) : List α × ℤ :=
  let history := h.1.take (h.2 + 1).toNat ++ [s]
  let historyIndex := h.2 + 1
  if 50 < history.length then (history.drop 1, historyIndex - 1)
  else (history, historyIndex)

/-- `saveState()` of `src/index.js` in full: serialize the scene (`none`
models the TypeError on a dangling endpoint) and run the stack mechanics. -/
def srcSaveState (st : SrcState) : Option SrcState :=
  (srcSerialize st).map (fun snap =>
    let hi := histCommit (st.history, st.historyIndex) snap
    { st with history := hi.1, historyIndex := hi.2 })

/-- The index movement of `undo()` (the restore reads the entry at the new
index, `histCurrent`). -/
def histUndo {α : Type} (h : List α × ℤ) : List α × ℤ :=
  if 0 < h.2 then (h.1, h.2 - 1) else h

/-- The history entry the current index denotes — the snapshot any restore
reads. -/
def histCurrent {α : Type} (h : List α × ℤ) : Option α :=
  h.1.get? h.2.toNat

/-- The history stack never exceeds 50 entries. -/
lemma histCommit_length_le {α : Type} (h : List α × ℤ) (s : α)
    (h50 : h.1.length ≤ 50) : (histCommit h s).1.length ≤ 50 := by
  have htk : (h.1.take (h.2 + 1).toNat).length ≤ 50 := by
    rw [List.length_take]
    exact le_trans (Nat.min_le_right _ _) h50
  rw [histCommit]
  by_cases hcond : 50 < (h.1.take (h.2 + 1).toNat ++ [s]).length
  · rw [if_pos hcond]
    show ((h.1.take (h.2 + 1).toNat ++ [s]).drop 1).length ≤ 50
    rw [List.length_drop, List.length_append, List.length_singleton]
    omega
  · rw [if_neg hcond]
    show (h.1.take (h.2 + 1).toNat ++ [s]).length ≤ 50
    omega

/-- Capacity invariant over any run of commits. -/
lemma foldl_histCommit_length_le {α : Type} :
    ∀ (ts : List α) (h : List α × ℤ), h.1.length ≤ 50 →
    (List.foldl histCommit h ts).1.length ≤ 50 := by
  intro ts
  induction ts with
  | nil => intro h hh; exact hh
  | cons t ts ih =>
    intro h hh
    rw [List.foldl_cons]
    exact ih _ (histCommit_length_le h t hh)

/-- One committed snapshot from a canonical state (index at the last entry):
append, and shift the oldest entry when the stack was full. -/
lemma histCommit_canonical {α : Type} (l0 : List α) (t : α) (h50 : l0.length ≤ 50) :
    histCommit (l0, (l0.length : ℤ) - 1) t =
      if l0.length = 50 then (l0.drop 1 ++ [t], 49)
      else (l0 ++ [t], (l0.length : ℤ)) := by
  have htake : ((l0.length : ℤ) - 1 + 1).toNat = l0.length := by omega
  have hhist : l0.take ((l0.length : ℤ) - 1 + 1).toNat ++ [t] = l0 ++ [t] := by
    rw [htake, List.take_length]
  rw [histCommit]
  show (if 50 < (l0.take ((l0.length : ℤ) - 1 + 1).toNat ++ [t]).length
      then ((l0.take ((l0.length : ℤ) - 1 + 1).toNat ++ [t]).drop 1,
        (l0.length : ℤ) - 1 + 1 - 1)
      else (l0.take ((l0.length : ℤ) - 1 + 1).toNat ++ [t], (l0.length : ℤ) - 1 + 1)) = _
  rw [hhist]
  have hlen : (l0 ++ [t]).length = l0.length + 1 := by
    rw [List.length_append, List.length_singleton]
  rw [hlen]
  by_cases hc : l0.length = 50
  · rw [if_pos (by omega : 50 < l0.length + 1), if_pos hc]
    refine Prod.ext ?_ ?_
    · show (l0 ++ [t]).drop 1 = l0.drop 1 ++ [t]
      exact List.drop_append_of_le_length (by omega)
    · show (l0.length : ℤ) - 1 + 1 - 1 = 49
      rw [hc]
      norm_num
  · rw [if_neg (by omega : ¬ 50 < l0.length + 1), if_neg hc]
    refine Prod.ext ?_ ?_
    · rfl
    · show (l0.length : ℤ) - 1 + 1 = (l0.length : ℤ)
      ring

/-- Closed form for a run of commits from a canonical state: the history is
the 50-suffix of everything ever pushed, the index its last position. -/
lemma foldl_histCommit_spec {α : Type} :
    ∀ (ts l0 : List α), l0 ≠ [] → l0.length ≤ 50 →
    List.foldl histCommit (l0, (l0.length : ℤ) - 1) ts
      = ((l0 ++ ts).drop ((l0 ++ ts).length - min (l0 ++ ts).length 50),
         ((min (l0 ++ ts).length 50 : ℕ) : ℤ) - 1) := by
  intro ts
  induction ts with
  | nil =>
    intro l0 hne h50
    rw [List.foldl_nil, List.append_nil, min_eq_left h50, Nat.sub_self, List.drop_zero]
  | cons t ts ih =>
    intro l0 hne h50
    have hpos : 0 < l0.length := List.length_pos.mpr hne
    rw [List.foldl_cons, histCommit_canonical l0 t h50]
    by_cases hc : l0.length = 50
    · rw [if_pos hc]
      have hlen1 : (l0.drop 1 ++ [t]).length = 50 := by
        rw [List.length_append, List.length_drop, List.length_singleton]
        omega
      have hne1 : l0.drop 1 ++ [t] ≠ [] := by simp
      have hle1 : (l0.drop 1 ++ [t]).length ≤ 50 := by omega
      have hidx : (49 : ℤ) = (((l0.drop 1 ++ [t]).length : ℕ) : ℤ) - 1 := by
        rw [hlen1]
        norm_num
      rw [hidx, ih (l0.drop 1 ++ [t]) hne1 hle1]
      have hl : (l0.drop 1 ++ [t]) ++ ts = (l0 ++ t :: ts).drop 1 := by
        rw [List.append_assoc, List.singleton_append,
          List.drop_append_of_le_length (by omega)]
      refine Prod.ext ?_ ?_
      · show ((l0.drop 1 ++ [t]) ++ ts).drop
            (((l0.drop 1 ++ [t]) ++ ts).length - min ((l0.drop 1 ++ [t]) ++ ts).length 50)
          = (l0 ++ t :: ts).drop ((l0 ++ t :: ts).length - min (l0 ++ t :: ts).length 50)
        rw [hl, List.drop_drop]
        congr 1
        simp only [List.length_drop, List.length_append, List.length_cons]
        omega
      · show ((min ((l0.drop 1 ++ [t]) ++ ts).length 50 : ℕ) : ℤ) - 1
          = ((min (l0 ++ t :: ts).length 50 : ℕ) : ℤ) - 1
        rw [hl]
        simp only [List.length_drop, List.length_append, List.length_cons]
        omega
    · rw [if_neg hc]
      have hidx : (l0.length : ℤ) = (((l0 ++ [t]).length : ℕ) : ℤ) - 1 := by
        rw [List.length_append, List.length_singleton]
        push_cast
        ring
      have hne2 : l0 ++ [t] ≠ [] := by simp
      have hle2 : (l0 ++ [t]).length ≤ 50 := by
        rw [List.length_append, List.length_singleton]
        omega
      rw [hidx, ih (l0 ++ [t]) hne2 hle2]
      rw [List.append_assoc, List.singleton_append]

/-- `undo()` never changes the stored history, only the index. -/
lemma histUndo_iterate_fst {α : Type} (k : ℕ) (h : List α × ℤ) :
    (histUndo^[k] h).1 = h.1 := by
  induction k generalizing h with
  | zero => rfl
  | succ k ih =>
    rw [Function.iterate_succ_apply, ih, histUndo]
    by_cases hc : 0 < h.2
    · rw [if_pos hc]
    · rw [if_neg hc]

/-- C9: the history stack never holds more than 50 snapshots; after 51
sequential commits t1..t51 from the freshly constructed state (history
[s0], index 0), the stack is exactly [t2, …, t51] with the index (49)
denoting the current snapshot t51, and — the oldest entries s0 and t1
having been evicted — no number of undo() calls can make the snapshot of
commit #1 current again (provided the later commits differ from it). -/
theorem c9_history_capacity_and_eviction {α : Type} (s0 t1 : α) (ts : List α)
    (hlen : ts.length = 51) (hhead : ts.head? = some t1) (hnot : t1 ∉ ts.drop 1) :
    (∀ (ops : List α) (h : List α × ℤ), h.1.length ≤ 50 →
      (List.foldl histCommit h ops).1.length ≤ 50)
    ∧ (List.foldl histCommit ([s0], 0) ts).1 = ts.drop 1
    ∧ (List.foldl histCommit ([s0], 0) ts).2 = 49
    ∧ histCurrent (List.foldl histCommit ([s0], 0) ts) = ts.getLast?
    ∧ ∀ k : ℕ, histCurrent (histUndo^[k] (List.foldl histCommit ([s0], 0) ts)) ≠ some t1 := by
  have hfold := foldl_histCommit_spec ts [s0] (by simp) (by simp)
  rw [show ((([s0] : List α).length : ℤ) - 1) = 0 by simp] at hfold
  have hlist : ([s0] ++ ts).drop (([s0] ++ ts).length - min ([s0] ++ ts).length 50)
      = ts.drop 1 := by
    rw [List.singleton_append]
    have h2 : (s0 :: ts).length - min (s0 :: ts).length 50 = 2 := by
      simp [List.length_cons, hlen]
    rw [h2]
    rfl
  have hidx : ((min ([s0] ++ ts).length 50 : ℕ) : ℤ) - 1 = 49 := by
    rw [List.singleton_append]
    norm_num [List.length_cons, hlen]
  have hfst : (List.foldl histCommit ([s0], 0) ts).1 = ts.drop 1 := by
    rw [hfold]
    exact hlist
  have hsnd : (List.foldl histCommit ([s0], 0) ts).2 = 49 := by
    rw [hfold]
    exact hidx
  refine ⟨fun ops h hh => foldl_histCommit_length_le ops h hh, hfst, hsnd, ?_, ?_⟩
  · rw [histCurrent, hfst, hsnd]
    show (ts.drop 1).get? 49 = ts.getLast?
    rw [List.get?_drop, List.getLast?_eq_get?, hlen]
  · intro k heq
    rw [histCurrent] at heq
    have hmem : t1 ∈ (histUndo^[k] (List.foldl histCommit ([s0], 0) ts)).1 :=
      List.get?_mem heq
    rw [histUndo_iterate_fst, hfst] at hmem
    exact hnot hmem

/-- The 51 commit snapshots 1..51 of the C9 witness. -/
def tsC9 : List ℕ := (List.range 51).map (fun n => n + 1)

/-- Witness for C9: after the 51 concrete commits the stack is [2, …, 51]
with index 49, and snapshot 1 is never current after any number of undos. -/
theorem c9_history_capacity_and_eviction_witness :
    (List.foldl histCommit ([(0 : ℕ)], 0) tsC9).1 = tsC9.drop 1
    ∧ (List.foldl histCommit ([(0 : ℕ)], 0) tsC9).2 = 49
    ∧ ∀ k : ℕ, histCurrent (histUndo^[k] (List.foldl histCommit ([(0 : ℕ)], 0) tsC9))
        ≠ some 1 :=
  ⟨(c9_history_capacity_and_eviction 0 1 tsC9 (by decide) (by decide) (by decide)).2.1,
   (c9_history_capacity_and_eviction 0 1 tsC9 (by decide) (by decide) (by decide)).2.2.1,
   (c9_history_capacity_and_eviction 0 1 tsC9 (by decide) (by decide) (by decide)).2.2.2.2⟩

end Flowchart
